import Mathlib

/-!
Verification of the task-tracking CRUD service (src/main.go).

The service keeps `Task` records in a MongoDB collection and exposes five
HTTP handlers: `createTask`, `getAllTasks`, `getTaskByID`, `updateTask`,
`deleteTask`.  We embed the handlers shallowly:

* the Mongo collection becomes a `List Task` (a `Store`), with the
  collection operations the code uses (`InsertOne`, `Find`, `FindOne`,
  `UpdateOne`, `DeleteOne`) as pure functions on it; `UpdateOne` and
  `DeleteOne` act on the first document matching the `_id` filter and
  report a matched/deleted count, exactly as the driver does for the
  single-document filters the code builds;
* `primitive.ObjectID` becomes a wrapper around the `Nat` value of the 12
  decoded bytes, and `primitive.ObjectIDFromHex` becomes `objectIDFromHex`,
  which accepts exactly the strings of 24 hexadecimal digits;
* `time.Now()` is impure, so each call site becomes an explicit `Nat`
  parameter of the handler (two for `createTask`, which calls it twice on
  lines 62-63, one for `updateTask`);
* `c.Bind` (JSON decoding) becomes an `Option Task` parameter: `none` is a
  decode failure, `some u` a payload that decoded to `u`;
* `primitive.NewObjectID()` becomes an explicit `ObjectID` parameter; the
  freshness the generator provides is a hypothesis where a theorem needs it;
* each handler returns a `Resp`: HTTP status, JSON body, and the store
  after the request.  Transport-level storage failures (an unreachable
  database) are environment faults outside the embedding; the one
  deterministic failure of `InsertOne`, a duplicate `_id` key, is kept.
-/

namespace CrudApi

/-- Embedding of `primitive.ObjectID`: the 12 decoded bytes, as the `Nat`
they denote in big-endian order. -/
structure ObjectID where
  val : Nat
deriving DecidableEq, Repr

/-- A character accepted by Go's `encoding/hex` decoder. -/
def hexDigit (c : Char) : Bool :=
  (('0' ≤ c) && (c ≤ '9')) || (('a' ≤ c) && (c ≤ 'f')) || (('A' ≤ c) && (c ≤ 'F'))

/-- Numeric value of a hexadecimal digit. -/
def hexVal (c : Char) : Nat :=
  if ('0' ≤ c) && (c ≤ '9') then c.toNat - '0'.toNat
  else if ('a' ≤ c) && (c ≤ 'f') then c.toNat - 'a'.toNat + 10
  else c.toNat - 'A'.toNat + 10

/-- Embedding of `primitive.ObjectIDFromHex` (src/main.go lines 94, 113,
146): succeeds exactly on strings of 24 hexadecimal digits, producing the
decoded identifier. -/
def objectIDFromHex (s : String) : Option ObjectID :=
  if s.length = 24 && s.toList.all hexDigit then
    some ⟨s.toList.foldl (fun a c => a * 16 + hexVal c) 0⟩
  else none

/-- Embedding of the `Task` struct (src/main.go lines 16-23).  Timestamps
are `Nat` clock readings. -/
structure Task where
  id : ObjectID
  title : String
  description : String
  status : String
  createdAt : Nat
  updatedAt : Nat
deriving DecidableEq, Repr

/-- The `tasks` collection, as the list of its documents. -/
abbrev Store := List Task

/-- Embedding of `FindOne` with filter `{_id: oid}` followed by `Decode`
(src/main.go line 100): the first document whose `_id` matches, if any. -/
def findOne (store : Store) (oid : ObjectID) : Option Task :=
  match store with
  | [] => none
  | t :: ts => if t.id = oid then some t else findOne ts oid

/-- Whether some document of the store carries the given `_id`. -/
def hasID (store : Store) (oid : ObjectID) : Bool :=
  match store with
  | [] => false
  | t :: ts => if t.id = oid then true else hasID ts oid

/-- Embedding of `InsertOne` (src/main.go line 65): appends the document;
the unique index on `_id` makes insertion of a duplicate key fail. -/
def insertOne (store : Store) (t : Task) : Option Store :=
  if hasID store t.id then none else some (store ++ [t])

/-- Embedding of `UpdateOne` with filter `{_id: oid}` (src/main.go line
133): rewrites the first matching document with `f` and reports the
matched count (`0` or `1`). -/
def updateOne (store : Store) (oid : ObjectID) (f : Task → Task) : Store × Nat :=
  match store with
  | [] => ([], 0)
  | t :: ts =>
    if t.id = oid then (f t :: ts, 1)
    else
      let r := updateOne ts oid f
      (t :: r.1, r.2)

/-- Embedding of `DeleteOne` with filter `{_id: oid}` (src/main.go line
151): removes the first matching document and reports the deleted count. -/
def deleteOne (store : Store) (oid : ObjectID) : Store × Nat :=
  match store with
  | [] => ([], 0)
  | t :: ts =>
    if t.id = oid then (ts, 1)
    else
      let r := deleteOne ts oid
      (t :: r.1, r.2)

/-- A JSON response body: a single task, a task listing, a
`{"message": ...}` object, or an `{"error": ...}` object. -/
inductive Body where
  | task : Task → Body
  | tasks : List Task → Body
  | msg : String → Body
  | err : String → Body
deriving DecidableEq, Repr

/-- Outcome of one request: HTTP status, JSON body, and the store after
the request. -/
structure Resp where
  status : Nat
  body : Body
  store : Store
deriving DecidableEq, Repr

/-- The task `createTask` persists and returns: the decoded payload after
the in-place mutations of src/main.go lines 57-63 (status defaulted to
`"Pending"` when empty, then `ID`, `CreatedAt`, `UpdatedAt` assigned by
the service). -/
def storedTask (task0 : Task) (oid : ObjectID) (t1 t2 : Nat) : Task :=
  { task0 with
    status := if task0.status = "" then "Pending" else task0.status
    id := oid
    createdAt := t1
    updatedAt := t2 }

/-- Embedding of `createTask` (src/main.go lines 48-71).  `bind` is the
result of `c.Bind`, `oid` the identifier `primitive.NewObjectID()`
returned, `t1` and `t2` the readings of the two `time.Now()` calls on
lines 62 and 63. -/
def createTask (store : Store) (bind : Option Task) (oid : ObjectID) (t1 t2 : Nat) : Resp :=
  match bind with
  | none => ⟨400, Body.err "Invalid input data", store⟩
  | some task0 =>
    if task0.title = "" then ⟨400, Body.err "Title is required", store⟩
    else
      let task : Task := storedTask task0 oid t1 t2
      match insertOne store task with
      | none => ⟨500, Body.err "Failed to create task", store⟩
      | some store2 => ⟨201, Body.task task, store2⟩

/-- Embedding of `getAllTasks` (src/main.go lines 73-90): the cursor over
filter `{}` yields every stored document, and each decodes back to the
`Task` it was inserted as. -/
def getAllTasks (store : Store) : Resp :=
  ⟨200, Body.tasks store, store⟩

/-- Embedding of `getTaskByID` (src/main.go lines 92-109). -/
def getTaskByID (store : Store) (id : String) : Resp :=
  match objectIDFromHex id with
  | none => ⟨400, Body.err "Invalid ID", store⟩
  | some oid =>
    match findOne store oid with
    | none => ⟨404, Body.err "Task not found", store⟩
    | some task => ⟨200, Body.task task, store⟩

/-- The `$set` document built on src/main.go lines 124-131, as the rewrite
it performs on a matched document: `title`, `description`, `status` from
the decoded payload `u`, `updated_at` from the clock reading `now`. -/
def applySet (u : Task) (now : Nat) (t : Task) : Task :=
  { t with
    title := u.title
    description := u.description
    status := u.status
    updatedAt := now }

/-- Embedding of `updateTask` (src/main.go lines 111-142).  `bind` is the
result of `c.Bind`, `now` the reading of `time.Now()` on line 123. -/
def updateTask (store : Store) (id : String) (bind : Option Task) (now : Nat) : Resp :=
  match objectIDFromHex id with
  | none => ⟨400, Body.err "Invalid ID", store⟩
  | some oid =>
    match bind with
    | none => ⟨400, Body.err "Invalid input data", store⟩
    | some u =>
      let r := updateOne store oid (applySet u now)
      if r.2 = 0 then ⟨404, Body.err "Task not found", r.1⟩
      else ⟨200, Body.msg "Task updated successfully", r.1⟩

/-- Embedding of `deleteTask` (src/main.go lines 144-159). -/
def deleteTask (store : Store) (id : String) : Resp :=
  match objectIDFromHex id with
  | none => ⟨400, Body.err "Invalid ID", store⟩
  | some oid =>
    let r := deleteOne store oid
    if r.2 = 0 then ⟨404, Body.err "Task not found", r.1⟩
    else ⟨200, Body.msg "Task deleted successfully", r.1⟩

/-- The 24-zero identifier string, used for concrete instantiations. -/
def zeroHex : String := "000000000000000000000000"

/-- The identifier `zeroHex` decodes to. -/
def zeroID : ObjectID := ⟨0⟩

/-- A well-formed identifier string distinct from `zeroHex`, used for
concrete instantiations. -/
def oneHex : String := "000000000000000000000001"

/-- A concrete stored task, for concrete instantiations. -/
def sampleStored : Task := ⟨zeroID, "old title", "old description", "Pending", 2, 5⟩

/-- A concrete decoded payload, for concrete instantiations. -/
def samplePayload : Task := ⟨⟨7⟩, "new title", "", "Done", 90, 91⟩

/-- A store whose documents all miss the filter is searched without a hit. -/
theorem findOne_eq_none {l : Store} {oid : ObjectID} (h : ∀ x ∈ l, x.id ≠ oid) :
    findOne l oid = none := by
  induction l with
  | nil => rfl
  | cons t ts ih =>
    simp only [findOne]
    rw [if_neg (h t (List.mem_cons_self t ts))]
    exact ih fun x hx => h x (List.mem_cons_of_mem t hx)

/-- Searching skips a leading block of documents that miss the filter. -/
theorem findOne_append_left {l₁ l₂ : Store} {oid : ObjectID} (h : ∀ x ∈ l₁, x.id ≠ oid) :
    findOne (l₁ ++ l₂) oid = findOne l₂ oid := by
  induction l₁ with
  | nil => rfl
  | cons t ts ih =>
    simp only [List.cons_append, findOne]
    rw [if_neg (h t (List.mem_cons_self t ts))]
    exact ih fun x hx => h x (List.mem_cons_of_mem t hx)

/-- `hasID` is false when no document carries the identifier. -/
theorem hasID_eq_false {l : Store} {oid : ObjectID} (h : ∀ x ∈ l, x.id ≠ oid) :
    hasID l oid = false := by
  induction l with
  | nil => rfl
  | cons t ts ih =>
    simp only [hasID]
    rw [if_neg (h t (List.mem_cons_self t ts))]
    exact ih fun x hx => h x (List.mem_cons_of_mem t hx)

/-- `updateOne` at a matched document rewrites it and nothing else, and
reports one match. -/
theorem updateOne_append {pre post : Store} {t : Task} {oid : ObjectID} {f : Task → Task}
    (hpre : ∀ x ∈ pre, x.id ≠ oid) (ht : t.id = oid) :
    updateOne (pre ++ t :: post) oid f = (pre ++ f t :: post, 1) := by
  induction pre with
  | nil => simp only [List.nil_append, updateOne, if_pos ht]
  | cons p ps ih =>
    simp only [List.cons_append, updateOne, List.append_eq]
    rw [if_neg (hpre p (List.mem_cons_self p ps)),
      ih fun x hx => hpre x (List.mem_cons_of_mem p hx)]

/-- `deleteOne` at a matched document removes it and nothing else, and
reports one deletion. -/
theorem deleteOne_append {pre post : Store} {t : Task} {oid : ObjectID}
    (hpre : ∀ x ∈ pre, x.id ≠ oid) (ht : t.id = oid) :
    deleteOne (pre ++ t :: post) oid = (pre ++ post, 1) := by
  induction pre with
  | nil => simp only [List.nil_append, deleteOne, if_pos ht]
  | cons p ps ih =>
    simp only [List.cons_append, deleteOne, List.append_eq]
    rw [if_neg (hpre p (List.mem_cons_self p ps)),
      ih fun x hx => hpre x (List.mem_cons_of_mem p hx)]

/-- When identifiers are pairwise distinct, the store `deleteOne` leaves
behind has no document matching the deleted identifier. -/
theorem findOne_deleteOne {l : Store} {oid : ObjectID} (h : (l.map Task.id).Nodup) :
    findOne (deleteOne l oid).1 oid = none := by
  induction l with
  | nil => rfl
  | cons t ts ih =>
    by_cases hm : t.id = oid
    · simp only [deleteOne, if_pos hm]
      refine findOne_eq_none fun x hx hcontra => ?_
      have hmem : oid ∈ ts.map Task.id := by
        rw [← hcontra]
        exact List.mem_map_of_mem Task.id hx
      have hnot := (List.nodup_cons.mp h).1
      rw [hm] at hnot
      exact hnot hmem
    · simp only [deleteOne, if_neg hm, findOne, if_neg hm]
      exact ih (List.nodup_cons.mp h).2

/-- The identifier of the task built at creation is the service-generated
one. -/
@[simp] theorem storedTask_id (u : Task) (oid : ObjectID) (t1 t2 : Nat) :
    (storedTask u oid t1 t2).id = oid := rfl

/-- The title of the task built at creation is the payload's. -/
@[simp] theorem storedTask_title (u : Task) (oid : ObjectID) (t1 t2 : Nat) :
    (storedTask u oid t1 t2).title = u.title := rfl

/-- The description of the task built at creation is the payload's. -/
@[simp] theorem storedTask_description (u : Task) (oid : ObjectID) (t1 t2 : Nat) :
    (storedTask u oid t1 t2).description = u.description := rfl

/-- The status of the task built at creation is the payload's, defaulted
to `"Pending"` when empty. -/
@[simp] theorem storedTask_status (u : Task) (oid : ObjectID) (t1 t2 : Nat) :
    (storedTask u oid t1 t2).status = if u.status = "" then "Pending" else u.status := rfl

/-- The creation timestamp of the task built at creation is the first
clock reading. -/
@[simp] theorem storedTask_createdAt (u : Task) (oid : ObjectID) (t1 t2 : Nat) :
    (storedTask u oid t1 t2).createdAt = t1 := rfl

/-- The update timestamp of the task built at creation is the second
clock reading. -/
@[simp] theorem storedTask_updatedAt (u : Task) (oid : ObjectID) (t1 t2 : Nat) :
    (storedTask u oid t1 t2).updatedAt = t2 := rfl

/-- `updateOne` with a filter no document matches changes nothing and
reports zero matches. -/
theorem updateOne_no_match {l : Store} {oid : ObjectID} {f : Task → Task}
    (h : ∀ x ∈ l, x.id ≠ oid) : updateOne l oid f = (l, 0) := by
  induction l with
  | nil => rfl
  | cons t ts ih =>
    simp only [updateOne]
    rw [if_neg (h t (List.mem_cons_self t ts)),
      ih fun x hx => h x (List.mem_cons_of_mem t hx)]

/-- `deleteOne` with a filter no document matches changes nothing and
reports zero deletions. -/
theorem deleteOne_no_match {l : Store} {oid : ObjectID}
    (h : ∀ x ∈ l, x.id ≠ oid) : deleteOne l oid = (l, 0) := by
  induction l with
  | nil => rfl
  | cons t ts ih =>
    simp only [deleteOne]
    rw [if_neg (h t (List.mem_cons_self t ts)),
      ih fun x hx => h x (List.mem_cons_of_mem t hx)]

/-- A successful insertion appends the document. -/
theorem insertOne_eq_some {store : Store} {t : Task} {s2 : Store}
    (h : insertOne store t = some s2) : s2 = store ++ [t] := by
  unfold insertOne at h
  by_cases hh : hasID store t.id = true
  · rw [if_pos hh] at h
    exact absurd h (by simp)
  · rw [if_neg hh] at h
    exact (Option.some_injective _ h).symm

/-- A creation that answered 201 appended one document to the store. -/
theorem createTask_store_of_201 {store : Store} {bind : Option Task} {oid : ObjectID}
    {t1 t2 : Nat} (h : (createTask store bind oid t1 t2).status = 201) :
    ∃ tk, (createTask store bind oid t1 t2).store = store ++ [tk] := by
  match bind with
  | none => simp [createTask] at h
  | some task0 =>
    by_cases ht : task0.title = ""
    · simp [createTask, ht] at h
    · refine ⟨storedTask task0 oid t1 t2, ?_⟩
      simp only [createTask, if_neg ht] at h ⊢
      cases hins : insertOne store (storedTask task0 oid t1 t2) with
      | none => rw [hins] at h; simp at h
      | some s2 => simpa using insertOne_eq_some hins

/-- C1: on an existing task (the first document carrying the filtered
identifier) and any decoded payload, `updateTask` returns 200 and rewrites
exactly `title`, `description`, `status`, `updatedAt` of that document —
with the payload's values, empty or not — while its `id` and `createdAt`,
and every other document of the store, are unchanged. -/
theorem update_overwrites_exactly_mutable_fields
    (pre post : Store) (t u : Task) (s : String) (oid : ObjectID) (now : Nat)
    (hs : objectIDFromHex s = some oid)
    (hpre : ∀ x ∈ pre, x.id ≠ oid) (ht : t.id = oid) :
    updateTask (pre ++ t :: post) s (some u) now =
      ⟨200, Body.msg "Task updated successfully",
        pre ++ { t with title := u.title, description := u.description,
                        status := u.status, updatedAt := now } :: post⟩ := by
  simp only [updateTask, hs]
  rw [updateOne_append hpre ht]
  simp [applySet]

/-- Witness for C1 at a concrete store and payload: the matched record's
`title`, `description`, `status`, `updatedAt` become the payload's values
and the clock reading, `id` and `createdAt` stay. -/
theorem update_overwrites_exactly_mutable_fields_witness :
    updateTask [sampleStored] zeroHex (some samplePayload) 9 =
      ⟨200, Body.msg "Task updated successfully",
        [⟨zeroID, "new title", "", "Done", 2, 9⟩]⟩ :=
  update_overwrites_exactly_mutable_fields [] [] sampleStored samplePayload zeroHex zeroID 9
    (by decide) (by simp) rfl

/-- C4: a creation request that decoded with an empty (or omitted, hence
empty) `title` is rejected with 400 and the store is unchanged. -/
theorem create_empty_title_rejected (store : Store) (u : Task) (oid : ObjectID) (t1 t2 : Nat)
    (h : u.title = "") :
    createTask store (some u) oid t1 t2 = ⟨400, Body.err "Title is required", store⟩ := by
  simp only [createTask, if_pos h]

/-- Witness for C4: creating with an empty title against a one-task store
yields 400 and leaves the store as it was. -/
theorem create_empty_title_rejected_witness :
    createTask [sampleStored] (some ⟨⟨7⟩, "", "b", "Done", 3, 4⟩) zeroID 0 1 =
      ⟨400, Body.err "Title is required", [sampleStored]⟩ :=
  create_empty_title_rejected [sampleStored] ⟨⟨7⟩, "", "b", "Done", 3, 4⟩ zeroID 0 1 rfl

/-- C5: when the decoded creation payload has an empty (or omitted, hence
empty) `status`, the created and returned task has status `"Pending"`;
when the payload's `status` is non-empty, it is kept unchanged. -/
theorem create_status_default (store : Store) (u : Task) (oid : ObjectID) (t1 t2 : Nat)
    (hu : u.title ≠ "") (hfresh : ∀ x ∈ store, x.id ≠ oid) :
    (u.status = "" →
      createTask store (some u) oid t1 t2 =
        ⟨201, Body.task { u with status := "Pending", id := oid, createdAt := t1, updatedAt := t2 },
          store ++ [{ u with status := "Pending", id := oid, createdAt := t1, updatedAt := t2 }]⟩) ∧
    (u.status ≠ "" →
      createTask store (some u) oid t1 t2 =
        ⟨201, Body.task { u with id := oid, createdAt := t1, updatedAt := t2 },
          store ++ [{ u with id := oid, createdAt := t1, updatedAt := t2 }]⟩) := by
  constructor
  · intro h
    simp only [createTask, if_neg hu, insertOne, storedTask_id]
    simp only [hasID_eq_false hfresh]
    simp [storedTask, h]
  · intro h
    simp only [createTask, if_neg hu, insertOne, storedTask_id]
    simp only [hasID_eq_false hfresh]
    simp [storedTask, h]

/-- Witness for C5: an empty-status payload is created with status
`"Pending"`, and a `"Done"` payload keeps `"Done"`. -/
theorem create_status_default_witness :
    createTask [] (some ⟨⟨7⟩, "a", "x", "", 3, 4⟩) zeroID 0 0 =
      ⟨201, Body.task ⟨zeroID, "a", "x", "Pending", 0, 0⟩, [⟨zeroID, "a", "x", "Pending", 0, 0⟩]⟩ ∧
    createTask [] (some ⟨⟨7⟩, "a", "x", "Done", 3, 4⟩) zeroID 0 0 =
      ⟨201, Body.task ⟨zeroID, "a", "x", "Done", 0, 0⟩, [⟨zeroID, "a", "x", "Done", 0, 0⟩]⟩ :=
  ⟨(create_status_default [] ⟨⟨7⟩, "a", "x", "", 3, 4⟩ zeroID 0 0 (by decide) (by simp)).1 rfl,
   (create_status_default [] ⟨⟨7⟩, "a", "x", "Done", 3, 4⟩ zeroID 0 0 (by decide) (by simp)).2
     (by decide)⟩

/-- C9: creation ignores any caller-supplied `id`, `createdAt`,
`updatedAt`: the persisted and returned record carries the
service-generated identifier and the service clock readings, and changing
those payload fields changes nothing in the outcome. -/
theorem create_discards_caller_fields (store : Store) (u : Task) (oid : ObjectID) (t1 t2 : Nat)
    (hu : u.title ≠ "") (hfresh : ∀ x ∈ store, x.id ≠ oid) :
    (createTask store (some u) oid t1 t2).status = 201 ∧
    (createTask store (some u) oid t1 t2).body =
      Body.task
        { u with
          id := oid
          createdAt := t1
          updatedAt := t2
          status := if u.status = "" then "Pending" else u.status } ∧
    (∀ i : ObjectID, ∀ c d : Nat,
      createTask store (some { u with id := i, createdAt := c, updatedAt := d }) oid t1 t2 =
        createTask store (some u) oid t1 t2) := by
  refine ⟨?_, ?_, fun i c d => rfl⟩ <;>
  · simp only [createTask, if_neg hu, insertOne, storedTask_id]
    simp only [hasID_eq_false hfresh]
    simp [storedTask]

/-- Witness for C9: a payload that supplies its own `id`, `createdAt` and
`updatedAt` is persisted with the service's identifier and clock readings
instead. -/
theorem create_discards_caller_fields_witness :
    (createTask [] (some ⟨⟨7⟩, "a", "b", "Done", 3, 4⟩) zeroID 1 2).status = 201 ∧
    (createTask [] (some ⟨⟨7⟩, "a", "b", "Done", 3, 4⟩) zeroID 1 2).body =
      Body.task ⟨zeroID, "a", "b", "Done", 1, 2⟩ ∧
    createTask [] (some ⟨⟨9⟩, "a", "b", "Done", 77, 88⟩) zeroID 1 2 =
      createTask [] (some ⟨⟨7⟩, "a", "b", "Done", 3, 4⟩) zeroID 1 2 := by
  have h := create_discards_caller_fields [] ⟨⟨7⟩, "a", "b", "Done", 3, 4⟩ zeroID 1 2
    (by decide) (by simp)
  exact ⟨h.1, h.2.1, h.2.2 ⟨9⟩ 77 88⟩

/-- C10: `updateTask` never checks the payload's `title`: on an existing
task, a decodable payload with an empty title succeeds with 200 and the
stored record's title becomes empty — the creation-time non-empty-title
rule is not enforced on update. -/
theorem update_accepts_empty_title
    (pre post : Store) (t u : Task) (s : String) (oid : ObjectID) (now : Nat)
    (hs : objectIDFromHex s = some oid)
    (hpre : ∀ x ∈ pre, x.id ≠ oid) (ht : t.id = oid) (hu : u.title = "") :
    (updateTask (pre ++ t :: post) s (some u) now).status = 200 ∧
    findOne (updateTask (pre ++ t :: post) s (some u) now).store oid =
      some { t with title := "", description := u.description,
                    status := u.status, updatedAt := now } := by
  simp only [updateTask, hs]
  rw [updateOne_append (f := applySet u now) hpre ht]
  refine ⟨by simp, ?_⟩
  rw [if_neg one_ne_zero]
  show findOne (pre ++ applySet u now t :: post) oid = _
  rw [findOne_append_left hpre]
  simp [findOne, applySet, ht, hu]

/-- C3: the three identifier-taking handlers agree on identifier errors:
a string `objectIDFromHex` rejects makes `getTaskByID`, `updateTask` (for
any bind outcome) and `deleteTask` all answer 400, and a well-formed
identifier no stored document carries makes all three (with a decodable
update payload) answer 404. -/
theorem id_error_agreement (store : Store) (s : String) (bind : Option Task) (u : Task)
    (now : Nat) :
    (objectIDFromHex s = none →
      (getTaskByID store s).status = 400 ∧
      (updateTask store s bind now).status = 400 ∧
      (deleteTask store s).status = 400) ∧
    (∀ oid : ObjectID, objectIDFromHex s = some oid → (∀ x ∈ store, x.id ≠ oid) →
      (getTaskByID store s).status = 404 ∧
      (updateTask store s (some u) now).status = 404 ∧
      (deleteTask store s).status = 404) := by
  constructor
  · intro h
    refine ⟨?_, ?_, ?_⟩ <;> simp [getTaskByID, updateTask, deleteTask, h]
  · intro oid h hmiss
    refine ⟨?_, ?_, ?_⟩
    · simp [getTaskByID, h, findOne_eq_none hmiss]
    · simp [updateTask, h, updateOne_no_match hmiss]
    · simp [deleteTask, h, deleteOne_no_match hmiss]

/-- Witness for C3: on a one-task store, the malformed identifier `"bad"`
makes all three handlers answer 400, and the well-formed but absent
identifier `oneHex` makes all three answer 404. -/
theorem id_error_agreement_witness :
    ((getTaskByID [sampleStored] "bad").status = 400 ∧
      (updateTask [sampleStored] "bad" (some samplePayload) 0).status = 400 ∧
      (deleteTask [sampleStored] "bad").status = 400) ∧
    ((getTaskByID [sampleStored] oneHex).status = 404 ∧
      (updateTask [sampleStored] oneHex (some samplePayload) 0).status = 404 ∧
      (deleteTask [sampleStored] oneHex).status = 404) :=
  ⟨(id_error_agreement [sampleStored] "bad" (some samplePayload) samplePayload 0).1 (by decide),
   (id_error_agreement [sampleStored] oneHex (some samplePayload) samplePayload 0).2 ⟨1⟩
     (by decide) (by decide)⟩

/-- C6: listing answers 200 with exactly the stored documents — the empty
store gives the empty sequence, not an error — and each creation that
answered 201 grows the listing by exactly one entry. -/
theorem list_returns_exactly_store (store : Store) :
    getAllTasks store = ⟨200, Body.tasks store, store⟩ ∧
    getAllTasks [] = ⟨200, Body.tasks [], []⟩ ∧
    (∀ bind : Option Task, ∀ oid : ObjectID, ∀ t1 t2 : Nat,
      (createTask store bind oid t1 t2).status = 201 →
      getAllTasks (createTask store bind oid t1 t2).store =
        ⟨200, Body.tasks (createTask store bind oid t1 t2).store,
          (createTask store bind oid t1 t2).store⟩ ∧
      ((createTask store bind oid t1 t2).store).length = store.length + 1) := by
  refine ⟨rfl, rfl, fun bind oid t1 t2 h => ⟨rfl, ?_⟩⟩
  obtain ⟨tk, hst⟩ := createTask_store_of_201 h
  rw [hst, List.length_append, List.length_singleton]

/-- Witness for C6: listing a one-task store returns 200 with that task,
and after a successful creation the listing has two entries. -/
theorem list_returns_exactly_store_witness :
    getAllTasks [sampleStored] = ⟨200, Body.tasks [sampleStored], [sampleStored]⟩ ∧
    ((createTask [sampleStored] (some samplePayload) ⟨1⟩ 0 0).store).length = 2 :=
  ⟨(list_returns_exactly_store [sampleStored]).1,
   ((list_returns_exactly_store [sampleStored]).2.2 (some samplePayload) ⟨1⟩ 0 0 (by decide)).2⟩

/-- C7: when identifiers are pairwise distinct across the store (the
unique `_id` index invariant), a delete that answered 200 leaves a store
on which `getTaskByID` with the same identifier string answers 404. -/
theorem delete_then_get_404 (store : Store) (s : String)
    (hN : (store.map Task.id).Nodup)
    (h : (deleteTask store s).status = 200) :
    (getTaskByID (deleteTask store s).store s).status = 404 := by
  cases hs : objectIDFromHex s with
  | none => simp [deleteTask, hs] at h
  | some oid =>
    simp only [deleteTask, hs] at h ⊢
    by_cases h0 : (deleteOne store oid).2 = 0
    · rw [if_pos h0] at h
      simp at h
    · rw [if_neg h0]
      simp only [getTaskByID, hs]
      rw [findOne_deleteOne hN]

/-- Witness for C7: deleting the only task of a store answers 200, and the
follow-up fetch by the same identifier string answers 404. -/
theorem delete_then_get_404_witness :
    (deleteTask [sampleStored] zeroHex).status = 200 ∧
    (getTaskByID (deleteTask [sampleStored] zeroHex).store zeroHex).status = 404 :=
  ⟨by decide, delete_then_get_404 [sampleStored] zeroHex (by decide) (by decide)⟩

/-- Witness for C10: updating a stored task with an empty-title payload
returns 200 and blanks the stored title. -/
theorem update_accepts_empty_title_witness :
    (updateTask [sampleStored] zeroHex (some ⟨⟨7⟩, "", "d2", "s2", 0, 0⟩) 8).status = 200 ∧
    findOne (updateTask [sampleStored] zeroHex (some ⟨⟨7⟩, "", "d2", "s2", 0, 0⟩) 8).store zeroID =
      some ⟨zeroID, "", "d2", "s2", 2, 8⟩ :=
  update_accepts_empty_title [] [] sampleStored ⟨⟨7⟩, "", "d2", "s2", 0, 0⟩ zeroHex zeroID 8
    (by decide) (by simp) rfl rfl

/-- Counterexample to C2 as stated: `createTask` reads the clock twice
(src/main.go lines 62-63); when the two readings differ — here 0 and 1 —
the record fetched back by the returned identifier has `createdAt = 0` but
`updatedAt = 1`, so `createdAt = updatedAt` fails. -/
theorem create_get_roundtrip_cex :
    (createTask [] (some ⟨⟨7⟩, "a", "d", "Done", 50, 60⟩) zeroID 0 1).status = 201 ∧
    getTaskByID (createTask [] (some ⟨⟨7⟩, "a", "d", "Done", 50, 60⟩) zeroID 0 1).store zeroHex =
      ⟨200, Body.task ⟨zeroID, "a", "d", "Done", 0, 1⟩, [⟨zeroID, "a", "d", "Done", 0, 1⟩]⟩ ∧
    (⟨zeroID, "a", "d", "Done", 0, 1⟩ : Task).createdAt ≠
      (⟨zeroID, "a", "d", "Done", 0, 1⟩ : Task).updatedAt := by
  decide

/-- C2 (amended): creating a task and fetching it by the identifier
returned with the 201 response yields exactly the created record: its
`title`, `description`, `status` are those of the created task, its
`createdAt` and `updatedAt` are the first and second creation-time clock
readings, and they are equal whenever those two readings coincide. -/
theorem create_get_roundtrip (store : Store) (u : Task) (oid : ObjectID) (t1 t2 : Nat)
    (s : String) (hu : u.title ≠ "") (hfresh : ∀ x ∈ store, x.id ≠ oid)
    (hs : objectIDFromHex s = some oid) :
    createTask store (some u) oid t1 t2 =
      ⟨201, Body.task (storedTask u oid t1 t2), store ++ [storedTask u oid t1 t2]⟩ ∧
    getTaskByID (createTask store (some u) oid t1 t2).store s =
      ⟨200, Body.task (storedTask u oid t1 t2), store ++ [storedTask u oid t1 t2]⟩ ∧
    (storedTask u oid t1 t2).title = u.title ∧
    (storedTask u oid t1 t2).description = u.description ∧
    (storedTask u oid t1 t2).status = (if u.status = "" then "Pending" else u.status) ∧
    (storedTask u oid t1 t2).createdAt = t1 ∧
    (storedTask u oid t1 t2).updatedAt = t2 ∧
    (t1 = t2 → (storedTask u oid t1 t2).createdAt = (storedTask u oid t1 t2).updatedAt) := by
  have hcreate : createTask store (some u) oid t1 t2 =
      ⟨201, Body.task (storedTask u oid t1 t2), store ++ [storedTask u oid t1 t2]⟩ := by
    simp only [createTask, if_neg hu, insertOne, storedTask_id]
    simp [hasID_eq_false hfresh]
  refine ⟨hcreate, ?_, rfl, rfl, rfl, rfl, rfl, fun h => by simp [h]⟩
  rw [hcreate]
  simp only [getTaskByID, hs]
  rw [findOne_append_left hfresh]
  simp [findOne]

/-- Witness for C2 (amended): with coinciding creation clock readings, the
fetched record equals the created one and its two timestamps agree. -/
theorem create_get_roundtrip_witness :
    getTaskByID (createTask [] (some ⟨⟨7⟩, "a", "d", "Done", 50, 60⟩) zeroID 3 3).store zeroHex =
      ⟨200, Body.task ⟨zeroID, "a", "d", "Done", 3, 3⟩, [⟨zeroID, "a", "d", "Done", 3, 3⟩]⟩ ∧
    (⟨zeroID, "a", "d", "Done", 3, 3⟩ : Task).createdAt =
      (⟨zeroID, "a", "d", "Done", 3, 3⟩ : Task).updatedAt := by
  have h := create_get_roundtrip [] ⟨⟨7⟩, "a", "d", "Done", 50, 60⟩ zeroID 3 3 zeroHex
    (by decide) (by simp) (by decide)
  exact ⟨h.2.1, h.2.2.2.2.2.2.2 rfl⟩

/-- Counterexample to C8 as stated: `updateTask` stores as `updatedAt` the
clock reading of its `time.Now()` call (src/main.go line 123); when that
reading — here 5 — equals the record's prior `updatedAt`, the update
answers 200 yet the stored `updatedAt` is not strictly greater. -/
theorem update_refreshes_updatedAt_cex :
    sampleStored.updatedAt = 5 ∧
    (updateTask [sampleStored] zeroHex (some samplePayload) 5).status = 200 ∧
    findOne (updateTask [sampleStored] zeroHex (some samplePayload) 5).store zeroID =
      some ⟨zeroID, "new title", "", "Done", 2, 5⟩ ∧
    ¬ sampleStored.updatedAt < (⟨zeroID, "new title", "", "Done", 2, 5⟩ : Task).updatedAt := by
  decide

/-- C8 (amended): a successful update stores as `updatedAt` the
update-time clock reading; whenever that reading is strictly later than
the record's prior `updatedAt` — as it is once the clock has advanced —
the stored `updatedAt` is strictly greater than the prior one. -/
theorem update_refreshes_updatedAt (pre post : Store) (t u : Task) (s : String)
    (oid : ObjectID) (now : Nat)
    (hs : objectIDFromHex s = some oid)
    (hpre : ∀ x ∈ pre, x.id ≠ oid) (ht : t.id = oid)
    (hclock : t.updatedAt < now) :
    (updateTask (pre ++ t :: post) s (some u) now).status = 200 ∧
    findOne (updateTask (pre ++ t :: post) s (some u) now).store oid =
      some (applySet u now t) ∧
    (applySet u now t).updatedAt = now ∧
    t.updatedAt < (applySet u now t).updatedAt := by
  simp only [updateTask, hs]
  rw [updateOne_append (f := applySet u now) hpre ht]
  refine ⟨by simp, ?_, rfl, hclock⟩
  rw [if_neg one_ne_zero]
  show findOne (pre ++ applySet u now t :: post) oid = _
  rw [findOne_append_left hpre]
  simp [findOne, applySet, ht]

/-- Witness for C8 (amended): updating a record whose prior `updatedAt` is
5 with clock reading 9 answers 200 and stores `updatedAt = 9 > 5`. -/
theorem update_refreshes_updatedAt_witness :
    (updateTask [sampleStored] zeroHex (some samplePayload) 9).status = 200 ∧
    findOne (updateTask [sampleStored] zeroHex (some samplePayload) 9).store zeroID =
      some ⟨zeroID, "new title", "", "Done", 2, 9⟩ ∧
    sampleStored.updatedAt < (⟨zeroID, "new title", "", "Done", 2, 9⟩ : Task).updatedAt := by
  have h := update_refreshes_updatedAt [] [] sampleStored samplePayload zeroHex zeroID 9
    (by decide) (by simp) rfl (by decide)
  exact ⟨h.1, h.2.1, h.2.2.2⟩

end CrudApi
